import Mathlib

/-!
Verification of the TWAI (CAN) adapter `can_twai.c` against its specification.

The adapter is embedded shallowly: every C function becomes a pure Lean
function.  The results of the underlying ESP-IDF driver primitives
(`twai_driver_install`, `twai_start`, `twai_stop`, `twai_driver_uninstall`,
`twai_transmit`, `twai_receive`, `twai_get_status_info`) are oracle inputs,
and each adapter function returns its boolean result together with the
ordered list of externally visible actions (driver calls, task delays, log
statements) it performs, exactly in the order of the C source.
-/

/-- ESP-IDF error codes are plain integers; the adapter only compares them
against `ESP_OK` and `ESP_ERR_TIMEOUT`. -/
abbrev esp_err_t := Nat

def ESP_OK : esp_err_t := 0

def ESP_ERR_TIMEOUT : esp_err_t := 0x107

/-- Maximum data length code of a classic CAN frame (from `driver/twai.h`). -/
def TWAI_FRAME_MAX_DLC : Nat := 8

/-- Controller states of `twai_state_t` in `driver/twai.h`. -/
inductive TwaiState where
  | stopped
  | running
  | busOff
  | recovering
deriving DecidableEq, Repr

/-- Externally visible actions the adapter can perform, recorded in order. -/
inductive AdapterAction where
  | getStatusInfo
  | initiateRecovery
  | stop
  | start
  | delay (ticks : Nat)
  | transmit (timeout : Nat)
  | receive (timeout : Nat)
  | driverInstall
  | driverUninstall
  | logError
  | logWarn
  | logInfo
  | logDebug
deriving DecidableEq, Repr

/-- `twai_wiring_config_t` from `can_twai_config.h`. -/
structure TwaiWiringConfig where
  tx_gpio : Int
  rx_gpio : Int
  clkout_gpio : Int
  bus_off_gpio : Int
deriving DecidableEq, Repr

/-- `twai_params_config_t` from `can_twai_config.h`. -/
structure TwaiParamsConfig where
  controller_id : Int
  mode : Nat
  tx_queue_len : Int
  rx_queue_len : Int
  alerts_enabled : Nat
  clkout_divider : Int
  intr_flags : Int
deriving DecidableEq, Repr

/-- `twai_timing_config_t` from the ESP-IDF driver. -/
structure TwaiTimingConfig where
  brp : Nat
  tseg_1 : Nat
  tseg_2 : Nat
  sjw : Nat
  triple_sampling : Bool
deriving DecidableEq, Repr

/-- `twai_filter_config_t` from the ESP-IDF driver. -/
structure TwaiFilterConfig where
  acceptance_code : Nat
  acceptance_mask : Nat
  single_filter : Bool
deriving DecidableEq, Repr

/-- `twai_tf_config_t` from `can_twai_config.h`. -/
structure TwaiTfConfig where
  timing : TwaiTimingConfig
  filter : TwaiFilterConfig
deriving DecidableEq, Repr

/-- `twai_timeouts_config_t` from `can_twai_config.h`; all values in ticks. -/
structure TwaiTimeoutsConfig where
  receive_timeout : Nat
  transmit_timeout : Nat
  bus_off_timeout : Nat
  bus_not_running_timeout : Nat
deriving DecidableEq, Repr

/-- `twai_backend_config_t` from `can_twai_config.h`. -/
structure TwaiBackendConfig where
  wiring : TwaiWiringConfig
  params : TwaiParamsConfig
  tf : TwaiTfConfig
  timeouts : TwaiTimeoutsConfig
deriving DecidableEq, Repr

/-- `twai_message_t` fields the adapter reads. -/
structure TwaiMessage where
  identifier : Nat
  data_length_code : Nat
  data : List Nat
  extd : Bool
  rtr : Bool
deriving DecidableEq, Repr

/-- Adapter module state: the single `static twai_backend_config_t twai_config`. -/
structure AdapterState where
  twai_config : TwaiBackendConfig
deriving DecidableEq, Repr

/-- The zero value of `twai_backend_config_t`, as produced by C static
zero-initialization of the `static` variable `twai_config`. -/
def zeroBackendConfig : TwaiBackendConfig :=
  { wiring := { tx_gpio := 0, rx_gpio := 0, clkout_gpio := 0, bus_off_gpio := 0 }
    params := { controller_id := 0, mode := 0, tx_queue_len := 0, rx_queue_len := 0,
                alerts_enabled := 0, clkout_divider := 0, intr_flags := 0 }
    tf := { timing := { brp := 0, tseg_1 := 0, tseg_2 := 0, sjw := 0, triple_sampling := false }
            filter := { acceptance_code := 0, acceptance_mask := 0, single_filter := false } }
    timeouts := { receive_timeout := 0, transmit_timeout := 0,
                  bus_off_timeout := 0, bus_not_running_timeout := 0 } }

/-- Module state before the first successful `can_twai_init`: the `static`
variable holds its zero-initialized value. -/
def initialAdapterState : AdapterState :=
  { twai_config := zeroBackendConfig }

/-- `can_twai_reset_if_needed` from `can_twai.c`.  `statusErr` is the result
of `twai_get_status_info` and `state` the controller state it reported. -/
def can_twai_reset_if_needed (cfg : TwaiBackendConfig) (statusErr : esp_err_t)
    (state : TwaiState) : List AdapterAction :=
  AdapterAction.getStatusInfo ::
    (if statusErr = ESP_OK then
      if state = TwaiState.busOff then
        [AdapterAction.logWarn, AdapterAction.initiateRecovery, AdapterAction.delay cfg.timeouts.bus_off_timeout]
      else if state ≠ TwaiState.running then
        [AdapterAction.logWarn, AdapterAction.stop, AdapterAction.delay cfg.timeouts.bus_not_running_timeout,
         AdapterAction.start]
      else []
    else [])

/-- `can_twai_send` from `can_twai.c`.  `transmitErr` is the result of
`twai_transmit`; `statusErr` and `busState` feed the recovery supervisor
when it is invoked. -/
def can_twai_send (st : AdapterState) (msg : TwaiMessage) (transmitErr : esp_err_t)
    (statusErr : esp_err_t) (busState : TwaiState) : Bool × List AdapterAction :=
  if msg.data_length_code > TWAI_FRAME_MAX_DLC then
    (false, [AdapterAction.logError])
  else if transmitErr ≠ ESP_OK then
    (false, AdapterAction.transmit st.twai_config.timeouts.transmit_timeout :: AdapterAction.logError ::
      can_twai_reset_if_needed st.twai_config statusErr busState)
  else
    (true, [AdapterAction.transmit st.twai_config.timeouts.transmit_timeout, AdapterAction.logDebug])

/-- `can_twai_receive` from `can_twai.c`.  `msgIsNull` models a NULL output
buffer, `receiveErr` is the result of `twai_receive`, and `rxDlc` the
`data_length_code` of the message it delivered on success. -/
def can_twai_receive (st : AdapterState) (msgIsNull : Bool) (receiveErr : esp_err_t)
    (rxDlc : Nat) (statusErr : esp_err_t) (busState : TwaiState) : Bool × List AdapterAction :=
  if msgIsNull then
    (false, [AdapterAction.logError])
  else if receiveErr = ESP_OK then
    if rxDlc ≤ TWAI_FRAME_MAX_DLC then
      (true, [AdapterAction.receive st.twai_config.timeouts.receive_timeout, AdapterAction.logDebug])
    else
      (false, [AdapterAction.receive st.twai_config.timeouts.receive_timeout, AdapterAction.logWarn])
  else if receiveErr ≠ ESP_ERR_TIMEOUT then
    (false, AdapterAction.receive st.twai_config.timeouts.receive_timeout :: AdapterAction.logError ::
      can_twai_reset_if_needed st.twai_config statusErr busState)
  else
    (false, [AdapterAction.receive st.twai_config.timeouts.receive_timeout])

/-- `can_twai_init` from `can_twai.c`.  `installErr` and `startErr` are the
results of `twai_driver_install` and `twai_start`; the returned state is the
module state after the call. -/
def can_twai_init (st : AdapterState) (cfg : TwaiBackendConfig)
    (installErr startErr : esp_err_t) : Bool × List AdapterAction × AdapterState :=
  let dbg := [AdapterAction.logDebug, AdapterAction.logDebug, AdapterAction.logDebug, AdapterAction.logDebug]
  if installErr ≠ ESP_OK then
    (false, dbg ++ [AdapterAction.driverInstall, AdapterAction.logError], st)
  else if startErr ≠ ESP_OK then
    (false, dbg ++ [AdapterAction.driverInstall, AdapterAction.start, AdapterAction.logError,
                    AdapterAction.driverUninstall], st)
  else
    (true, dbg ++ [AdapterAction.driverInstall, AdapterAction.start, AdapterAction.logInfo],
      { twai_config := cfg })

/-- `can_twai_deinit` from `can_twai.c`.  `stopErr` and `uninstallErr` are the
results of `twai_stop` and `twai_driver_uninstall`. -/
def can_twai_deinit (stopErr uninstallErr : esp_err_t) : Bool × List AdapterAction :=
  if stopErr ≠ ESP_OK then
    (false, [AdapterAction.stop, AdapterAction.logWarn])
  else if uninstallErr ≠ ESP_OK then
    (false, [AdapterAction.stop, AdapterAction.driverUninstall, AdapterAction.logWarn])
  else
    (true, [AdapterAction.stop, AdapterAction.driverUninstall])

/-- An action that changes controller state or blocks the caller. -/
def isIntervention : AdapterAction → Bool
  | AdapterAction.initiateRecovery => true
  | AdapterAction.stop => true
  | AdapterAction.start => true
  | AdapterAction.delay _ => true
  | _ => false

/-- The controller interventions and delays of a trace, in order. -/
def interventions (tr : List AdapterAction) : List AdapterAction :=
  tr.filter isIntervention

/-- Total number of ticks a trace blocks the calling task. -/
def totalDelay : List AdapterAction → Nat
  | [] => 0
  | AdapterAction.delay t :: rest => t + totalDelay rest
  | _ :: rest => totalDelay rest

/-- How many times a trace queries the controller status. -/
def statusQueryCount : List AdapterAction → Nat
  | [] => 0
  | AdapterAction.getStatusInfo :: rest => 1 + statusQueryCount rest
  | _ :: rest => statusQueryCount rest

/-- Claim C1: when the status query succeeds and reports BUS_OFF, the
supervisor performs exactly one bus-off recovery request followed by a block
of exactly `timeouts.bus_off_timeout` ticks, queries the status only once
(no re-check afterwards, the delay is the last action), and issues neither a
stop nor a start request. -/
theorem reset_busoff_policy (cfg : TwaiBackendConfig) :
    interventions (can_twai_reset_if_needed cfg ESP_OK TwaiState.busOff) =
      [AdapterAction.initiateRecovery, AdapterAction.delay cfg.timeouts.bus_off_timeout] ∧
    totalDelay (can_twai_reset_if_needed cfg ESP_OK TwaiState.busOff) =
      cfg.timeouts.bus_off_timeout ∧
    statusQueryCount (can_twai_reset_if_needed cfg ESP_OK TwaiState.busOff) = 1 ∧
    (can_twai_reset_if_needed cfg ESP_OK TwaiState.busOff).getLast? =
      some (AdapterAction.delay cfg.timeouts.bus_off_timeout) ∧
    AdapterAction.stop ∉ can_twai_reset_if_needed cfg ESP_OK TwaiState.busOff ∧
    AdapterAction.start ∉ can_twai_reset_if_needed cfg ESP_OK TwaiState.busOff := by
  simp [can_twai_reset_if_needed, interventions, isIntervention, totalDelay,
        statusQueryCount, ESP_OK]

/-- Claim C2: when the status query succeeds and reports a state that is
neither BUS_OFF nor RUNNING, the supervisor issues stop, then blocks for
exactly `timeouts.bus_not_running_timeout` ticks, then issues start, in that
order, and never issues a bus-off recovery request. -/
theorem reset_notrunning_policy (cfg : TwaiBackendConfig) (s : TwaiState)
    (h1 : s ≠ TwaiState.busOff) (h2 : s ≠ TwaiState.running) :
    interventions (can_twai_reset_if_needed cfg ESP_OK s) =
      [AdapterAction.stop, AdapterAction.delay cfg.timeouts.bus_not_running_timeout,
       AdapterAction.start] ∧
    totalDelay (can_twai_reset_if_needed cfg ESP_OK s) =
      cfg.timeouts.bus_not_running_timeout ∧
    statusQueryCount (can_twai_reset_if_needed cfg ESP_OK s) = 1 ∧
    AdapterAction.initiateRecovery ∉ can_twai_reset_if_needed cfg ESP_OK s := by
  cases s <;> simp_all [can_twai_reset_if_needed, interventions, isIntervention,
    totalDelay, statusQueryCount, ESP_OK]

/-- Witness for C2 at a concrete configuration and the STOPPED state. -/
theorem reset_notrunning_policy_witness :
    interventions (can_twai_reset_if_needed zeroBackendConfig ESP_OK TwaiState.stopped) =
      [AdapterAction.stop,
       AdapterAction.delay zeroBackendConfig.timeouts.bus_not_running_timeout,
       AdapterAction.start] ∧
    totalDelay (can_twai_reset_if_needed zeroBackendConfig ESP_OK TwaiState.stopped) =
      zeroBackendConfig.timeouts.bus_not_running_timeout ∧
    statusQueryCount (can_twai_reset_if_needed zeroBackendConfig ESP_OK TwaiState.stopped) = 1 ∧
    AdapterAction.initiateRecovery ∉
      can_twai_reset_if_needed zeroBackendConfig ESP_OK TwaiState.stopped :=
  reset_notrunning_policy zeroBackendConfig TwaiState.stopped (by decide) (by decide)

/-- Claim C3: when the status query succeeds and reports RUNNING, or the
status query itself fails, the supervisor is a no-op: its only action is the
status query, so it performs no recovery request, no stop, no start, and no
delay. -/
theorem reset_noop (cfg : TwaiBackendConfig) (statusErr : esp_err_t) (s : TwaiState)
    (h : statusErr ≠ ESP_OK ∨ (statusErr = ESP_OK ∧ s = TwaiState.running)) :
    can_twai_reset_if_needed cfg statusErr s = [AdapterAction.getStatusInfo] ∧
    interventions (can_twai_reset_if_needed cfg statusErr s) = [] ∧
    totalDelay (can_twai_reset_if_needed cfg statusErr s) = 0 := by
  rcases h with h | ⟨h, rfl⟩ <;>
    simp_all [can_twai_reset_if_needed, interventions, isIntervention, totalDelay]

/-- Witness for C3 at a failed status query (ESP_ERR_INVALID_STATE = 0x103)
with the controller in BUS_OFF: even then no action is taken. -/
theorem reset_noop_witness :
    can_twai_reset_if_needed zeroBackendConfig 0x103 TwaiState.busOff =
      [AdapterAction.getStatusInfo] ∧
    interventions (can_twai_reset_if_needed zeroBackendConfig 0x103 TwaiState.busOff) = [] ∧
    totalDelay (can_twai_reset_if_needed zeroBackendConfig 0x103 TwaiState.busOff) = 0 :=
  reset_noop zeroBackendConfig 0x103 TwaiState.busOff (Or.inl (by decide))

/-- Counterexample to claim C4: when `twai_stop` fails
(ESP_ERR_INVALID_STATE = 0x103), `can_twai_deinit` returns false without ever
attempting the uninstall step, so the uninstall step is not always attempted. -/
theorem deinit_stopfail_counterexample :
    (can_twai_deinit 0x103 ESP_OK).1 = false ∧
    AdapterAction.driverUninstall ∉ (can_twai_deinit 0x103 ESP_OK).2 := by
  decide

/-- Amended claim C4: `can_twai_deinit` succeeds exactly when both the stop
and the uninstall step succeed; however, if the stop step fails the function
returns failure immediately and the uninstall step is NOT attempted; the
uninstall step is attempted exactly when the stop step succeeds. -/
theorem deinit_amended (stopErr uninstallErr : esp_err_t) :
    ((can_twai_deinit stopErr uninstallErr).1 = true ↔
      (stopErr = ESP_OK ∧ uninstallErr = ESP_OK)) ∧
    (stopErr ≠ ESP_OK →
      (can_twai_deinit stopErr uninstallErr).2 = [AdapterAction.stop, AdapterAction.logWarn]) ∧
    (stopErr = ESP_OK →
      AdapterAction.driverUninstall ∈ (can_twai_deinit stopErr uninstallErr).2) := by
  by_cases h1 : stopErr = ESP_OK <;> by_cases h2 : uninstallErr = ESP_OK <;>
    simp_all [can_twai_deinit]

/-- Witness for the amended C4 at stop failing (0x103), uninstall ok. -/
theorem deinit_amended_witness :
    ((can_twai_deinit 0x103 ESP_OK).1 = true ↔ ((0x103 : esp_err_t) = ESP_OK ∧ ESP_OK = ESP_OK)) ∧
    ((0x103 : esp_err_t) ≠ ESP_OK →
      (can_twai_deinit 0x103 ESP_OK).2 = [AdapterAction.stop, AdapterAction.logWarn]) ∧
    ((0x103 : esp_err_t) = ESP_OK →
      AdapterAction.driverUninstall ∈ (can_twai_deinit 0x103 ESP_OK).2) :=
  deinit_amended 0x103 ESP_OK

/-- Claim C5: a message whose `data_length_code` exceeds
`TWAI_FRAME_MAX_DLC` makes `can_twai_send` return false without invoking the
transmit primitive and without invoking the recovery supervisor (no status
query, no intervention, no delay). -/
theorem send_oversize_rejected (st : AdapterState) (msg : TwaiMessage)
    (transmitErr statusErr : esp_err_t) (bs : TwaiState)
    (h : TWAI_FRAME_MAX_DLC < msg.data_length_code) :
    (can_twai_send st msg transmitErr statusErr bs).1 = false ∧
    (∀ t, AdapterAction.transmit t ∉ (can_twai_send st msg transmitErr statusErr bs).2) ∧
    statusQueryCount (can_twai_send st msg transmitErr statusErr bs).2 = 0 ∧
    interventions (can_twai_send st msg transmitErr statusErr bs).2 = [] := by
  simp [can_twai_send, h, statusQueryCount, interventions, isIntervention]

/-- Witness for C5 at a 9-byte message. -/
theorem send_oversize_rejected_witness :
    (can_twai_send initialAdapterState ⟨0x123, 9, [1, 2], false, false⟩
        ESP_OK ESP_OK TwaiState.running).1 = false ∧
    (∀ t, AdapterAction.transmit t ∉
      (can_twai_send initialAdapterState ⟨0x123, 9, [1, 2], false, false⟩
        ESP_OK ESP_OK TwaiState.running).2) ∧
    statusQueryCount (can_twai_send initialAdapterState ⟨0x123, 9, [1, 2], false, false⟩
        ESP_OK ESP_OK TwaiState.running).2 = 0 ∧
    interventions (can_twai_send initialAdapterState ⟨0x123, 9, [1, 2], false, false⟩
        ESP_OK ESP_OK TwaiState.running).2 = [] :=
  send_oversize_rejected initialAdapterState ⟨0x123, 9, [1, 2], false, false⟩
    ESP_OK ESP_OK TwaiState.running (by decide)

/-- Claim C6: when `twai_receive` reports a plain timeout, `can_twai_receive`
returns false, does not invoke the recovery supervisor (no status query, no
intervention, no delay beyond the receive call itself), and does not log an
error. -/
theorem receive_timeout_silent (st : AdapterState) (rxDlc : Nat)
    (statusErr : esp_err_t) (bs : TwaiState) :
    (can_twai_receive st false ESP_ERR_TIMEOUT rxDlc statusErr bs).1 = false ∧
    AdapterAction.logError ∉ (can_twai_receive st false ESP_ERR_TIMEOUT rxDlc statusErr bs).2 ∧
    statusQueryCount (can_twai_receive st false ESP_ERR_TIMEOUT rxDlc statusErr bs).2 = 0 ∧
    interventions (can_twai_receive st false ESP_ERR_TIMEOUT rxDlc statusErr bs).2 = [] := by
  simp [can_twai_receive, ESP_ERR_TIMEOUT, ESP_OK, statusQueryCount,
        interventions, isIntervention]

/-- Claim C8: when `twai_receive` succeeds but the delivered message has a
`data_length_code` above `TWAI_FRAME_MAX_DLC`, `can_twai_receive` returns
false (the message is discarded) and the recovery supervisor is not invoked. -/
theorem receive_invalid_dlc (st : AdapterState) (rxDlc : Nat)
    (statusErr : esp_err_t) (bs : TwaiState)
    (h : TWAI_FRAME_MAX_DLC < rxDlc) :
    (can_twai_receive st false ESP_OK rxDlc statusErr bs).1 = false ∧
    statusQueryCount (can_twai_receive st false ESP_OK rxDlc statusErr bs).2 = 0 ∧
    interventions (can_twai_receive st false ESP_OK rxDlc statusErr bs).2 = [] := by
  simp [can_twai_receive, Nat.not_le.mpr h, statusQueryCount, interventions,
        isIntervention]

/-- Witness for C8 at a received DLC of 15. -/
theorem receive_invalid_dlc_witness :
    (can_twai_receive initialAdapterState false ESP_OK 15 ESP_OK TwaiState.running).1 = false ∧
    statusQueryCount
      (can_twai_receive initialAdapterState false ESP_OK 15 ESP_OK TwaiState.running).2 = 0 ∧
    interventions
      (can_twai_receive initialAdapterState false ESP_OK 15 ESP_OK TwaiState.running).2 = [] :=
  receive_invalid_dlc initialAdapterState 15 ESP_OK TwaiState.running (by decide)

/-- Claim C9: for a message with a valid payload length, any non-success
transmit result (timeout included) makes `can_twai_send` invoke the recovery
supervisor (its full trace follows the transmit) and return false, while a
successful transmit makes it return true with no recovery invocation (no
status query, no intervention, no delay). -/
theorem send_transmit_outcome (st : AdapterState) (msg : TwaiMessage)
    (transmitErr statusErr : esp_err_t) (bs : TwaiState)
    (h : msg.data_length_code ≤ TWAI_FRAME_MAX_DLC) :
    (transmitErr ≠ ESP_OK →
      (can_twai_send st msg transmitErr statusErr bs).1 = false ∧
      (can_twai_send st msg transmitErr statusErr bs).2 =
        AdapterAction.transmit st.twai_config.timeouts.transmit_timeout ::
          AdapterAction.logError ::
          can_twai_reset_if_needed st.twai_config statusErr bs) ∧
    (transmitErr = ESP_OK →
      (can_twai_send st msg transmitErr statusErr bs).1 = true ∧
      statusQueryCount (can_twai_send st msg transmitErr statusErr bs).2 = 0 ∧
      interventions (can_twai_send st msg transmitErr statusErr bs).2 = []) := by
  by_cases ht : transmitErr = ESP_OK <;>
    simp_all [can_twai_send, Nat.not_lt.mpr h, statusQueryCount,
      interventions, isIntervention]

/-- Witness for C9 at an 8-byte message with a transmit timeout result. -/
theorem send_transmit_outcome_witness :
    ((ESP_ERR_TIMEOUT : esp_err_t) ≠ ESP_OK →
      (can_twai_send initialAdapterState ⟨0x123, 8, [1, 2, 3, 4, 5, 6, 7, 8], false, false⟩
          ESP_ERR_TIMEOUT ESP_OK TwaiState.busOff).1 = false ∧
      (can_twai_send initialAdapterState ⟨0x123, 8, [1, 2, 3, 4, 5, 6, 7, 8], false, false⟩
          ESP_ERR_TIMEOUT ESP_OK TwaiState.busOff).2 =
        AdapterAction.transmit initialAdapterState.twai_config.timeouts.transmit_timeout ::
          AdapterAction.logError ::
          can_twai_reset_if_needed initialAdapterState.twai_config ESP_OK TwaiState.busOff) ∧
    ((ESP_ERR_TIMEOUT : esp_err_t) = ESP_OK →
      (can_twai_send initialAdapterState ⟨0x123, 8, [1, 2, 3, 4, 5, 6, 7, 8], false, false⟩
          ESP_ERR_TIMEOUT ESP_OK TwaiState.busOff).1 = true ∧
      statusQueryCount (can_twai_send initialAdapterState
          ⟨0x123, 8, [1, 2, 3, 4, 5, 6, 7, 8], false, false⟩
          ESP_ERR_TIMEOUT ESP_OK TwaiState.busOff).2 = 0 ∧
      interventions (can_twai_send initialAdapterState
          ⟨0x123, 8, [1, 2, 3, 4, 5, 6, 7, 8], false, false⟩
          ESP_ERR_TIMEOUT ESP_OK TwaiState.busOff).2 = []) :=
  send_transmit_outcome initialAdapterState ⟨0x123, 8, [1, 2, 3, 4, 5, 6, 7, 8], false, false⟩
    ESP_ERR_TIMEOUT ESP_OK TwaiState.busOff (by decide)

/-- Claim C7: if the install step succeeds and the start step fails,
`can_twai_init` uninstalls the driver and returns false with the stored
configuration unchanged; moreover on every failing init the stored
configuration is unchanged, and on every successful init it becomes the
caller's configuration. -/
theorem init_start_failure_cleanup (st : AdapterState) (cfg : TwaiBackendConfig)
    (installErr startErr : esp_err_t)
    (h1 : installErr = ESP_OK) (h2 : startErr ≠ ESP_OK) :
    ((can_twai_init st cfg installErr startErr).1 = false ∧
     AdapterAction.driverUninstall ∈ (can_twai_init st cfg installErr startErr).2.1 ∧
     (can_twai_init st cfg installErr startErr).2.2 = st) ∧
    (∀ i s : esp_err_t, (can_twai_init st cfg i s).1 = false →
      (can_twai_init st cfg i s).2.2 = st) ∧
    (∀ i s : esp_err_t, (can_twai_init st cfg i s).1 = true →
      (can_twai_init st cfg i s).2.2 = AdapterState.mk cfg) := by
  refine ⟨by simp [can_twai_init, h1, h2], ?_, ?_⟩ <;>
    intro i s hres <;>
    by_cases hi : i = ESP_OK <;> by_cases hs : s = ESP_OK <;>
      simp_all [can_twai_init]

/-- Witness for C7: install ok, start fails with ESP_ERR_INVALID_STATE. -/
theorem init_start_failure_cleanup_witness :
    ((can_twai_init initialAdapterState zeroBackendConfig ESP_OK 0x103).1 = false ∧
     AdapterAction.driverUninstall ∈
       (can_twai_init initialAdapterState zeroBackendConfig ESP_OK 0x103).2.1 ∧
     (can_twai_init initialAdapterState zeroBackendConfig ESP_OK 0x103).2.2 =
       initialAdapterState) ∧
    (∀ i s : esp_err_t,
      (can_twai_init initialAdapterState zeroBackendConfig i s).1 = false →
      (can_twai_init initialAdapterState zeroBackendConfig i s).2.2 = initialAdapterState) ∧
    (∀ i s : esp_err_t,
      (can_twai_init initialAdapterState zeroBackendConfig i s).1 = true →
      (can_twai_init initialAdapterState zeroBackendConfig i s).2.2 =
        AdapterState.mk zeroBackendConfig) :=
  init_start_failure_cleanup initialAdapterState zeroBackendConfig ESP_OK 0x103
    (by decide) (by decide)

/-- Claim C10: before the first successful `can_twai_init` the stored
configuration is the zero-initialized value, and since `can_twai_send` and
`can_twai_receive` perform no initialized-state check, calling them in that
state (with locally valid arguments) always reaches the underlying driver
primitive with a timeout of 0 ticks, whatever the driver then answers. -/
theorem uninit_zero_timeouts (msg : TwaiMessage)
    (transmitErr receiveErr statusErr : esp_err_t) (rxDlc : Nat) (bs : TwaiState)
    (h : msg.data_length_code ≤ TWAI_FRAME_MAX_DLC) :
    initialAdapterState.twai_config = zeroBackendConfig ∧
    AdapterAction.transmit 0 ∈
      (can_twai_send initialAdapterState msg transmitErr statusErr bs).2 ∧
    AdapterAction.receive 0 ∈
      (can_twai_receive initialAdapterState false receiveErr rxDlc statusErr bs).2 := by
  refine ⟨rfl, ?_, ?_⟩
  · by_cases ht : transmitErr = ESP_OK <;>
      simp_all [can_twai_send, Nat.not_lt.mpr h, initialAdapterState, zeroBackendConfig]
  · by_cases hr : receiveErr = ESP_OK <;> by_cases hd : rxDlc ≤ TWAI_FRAME_MAX_DLC <;>
      by_cases hto : receiveErr = ESP_ERR_TIMEOUT <;>
      simp_all [can_twai_receive, initialAdapterState, zeroBackendConfig] <;>
      split <;> simp

/-- Witness for C10 at a 4-byte message and a driver that reports
ESP_ERR_INVALID_STATE (0x103) on both paths. -/
theorem uninit_zero_timeouts_witness :
    initialAdapterState.twai_config = zeroBackendConfig ∧
    AdapterAction.transmit 0 ∈
      (can_twai_send initialAdapterState ⟨0x42, 4, [9, 9, 9, 9], false, false⟩
        0x103 0x103 TwaiState.running).2 ∧
    AdapterAction.receive 0 ∈
      (can_twai_receive initialAdapterState false 0x103 0 0x103 TwaiState.running).2 :=
  uninit_zero_timeouts ⟨0x42, 4, [9, 9, 9, 9], false, false⟩ 0x103 0x103 0x103 0
    TwaiState.running (by decide)
